import Mathlib

/-!
Verification of the usbmount repository (src/lib.rs, src/main.rs).

The development shallowly embeds the two Rust source files:

* `src/lib.rs`: the mountinfo table parser (`MountInfo::parse`,
  `MountInfo::get_mount_points_by_id`) and the udev block-device
  classifier (`PartitionDevice::from_device`,
  `get_available_partition_devices`).
* `src/main.rs`: the mount/umount command flows (device selection,
  the already-mounted and not-mounted guards, mount-path allocation,
  unmount cleanup).

Conventions used throughout:

* Rust panics (`panic`, `expect`, `unwrap` on `None`/`Err`) are embedded
  as `Except.error msg`; normal returns are `Except.ok`.
* The udev library, the filesystem and the mount syscalls are external
  inputs; they are embedded as explicit data (`UdevDevice`) or oracles
  (`Env`), carrying exactly the observations the source code makes.
* Rust `HashMap` is embedded as an association list with key-equality
  lookup; only lookup behaviour (not iteration order) is relied on by
  the theorems, except where a map is known to have exactly one entry.
* Machine integers: the partition size is a `u64` product `n * 512` in
  release mode, hence reduced modulo 2^64.
-/

/-! ## Regex engine

`MountInfo::parse` matches each line of `/proc/self/mountinfo` against the
regex (src/lib.rs line 30):

  (\d*)\s(\d*)\s(\d*:\d*)\s([\S]*)\s([\S]*)\s([A-Za-z0-9,]*)\s([A-Za-z0-9:\s]*)\s\- ([\S]*)\s([\S]*)(.*)

We embed the exact pattern over a small regex language covering the
constructs it uses: single characters from a class, greedy star over a
class, concatenation, and numbered capture groups.  The matcher follows
the leftmost-first (Perl-style backtracking preference) semantics of the
Rust regex crate: alternatives are produced as a list ordered by
preference and the first one is taken.  Character classes are embedded at
their ASCII meaning (mountinfo content is ASCII). -/

inductive RE where
  | eps : RE
  | ch : (Char → Bool) → RE
  | star : (Char → Bool) → RE
  | cat : RE → RE → RE
  | grp : Nat → RE → RE

/-- Suffixes of `s` left after the greedy star over class `p` consumes
`run.length, run.length - 1, …, 0` characters, in backtracking preference
order (longest consumption first). -/
def starSplits (p : Char → Bool) (s : List Char) : List (List Char) :=
  let run := s.takeWhile p
  (List.range (run.length + 1)).map (fun i => s.drop (run.length - i))

/-- The string consumed by a partial match that started at `s` and left
`rest`. -/
def consumedStr (s rest : List Char) : String :=
  String.mk (s.take (s.length - rest.length))

/-- All ways a regex can match a prefix of `s`, in backtracking preference
order.  Each outcome is the remaining suffix plus the captured groups. -/
def reMatches : RE → List Char → List (List Char × List (Nat × String))
  | .eps, s => [(s, [])]
  | .ch p, s =>
    match s with
    | [] => []
    | c :: rest => if p c then [(rest, [])] else []
  | .star p, s => (starSplits p s).map (fun r => (r, []))
  | .cat a b, s =>
    (reMatches a s).flatMap
      (fun x => (reMatches b x.1).map (fun y => (y.1, x.2 ++ y.2)))
  | .grp n r, s =>
    (reMatches r s).map (fun x => (x.1, x.2 ++ [(n, consumedStr s x.1)]))

/-- Unanchored leftmost search: try each start position left to right and
return the captures of the preferred match at the first position that
matches, as `Regex::captures` does. -/
def reFind (r : RE) : List Char → Option (List (Nat × String))
  | [] => ((reMatches r []).head?).map (fun x => x.2)
  | c :: t =>
    match (reMatches r (c :: t)).head? with
    | some x => some x.2
    | none => reFind r t

/-- Capture-group lookup, as `&caps[n]`. -/
def capsGet (caps : List (Nat × String)) (n : Nat) : Option String :=
  (caps.find? (fun e => e.1 == n)).map (fun e => e.2)

/-! Character classes of the pattern, at their ASCII meaning. -/

/-- `\s`: ASCII whitespace as the regex crate defines it. -/
def isWsChar (c : Char) : Bool :=
  c == ' ' || c == '\t' || c == '\n' || c == '\x0b' || c == '\x0c' || c == '\r'

/-- `[A-Za-z0-9,]`. -/
def isOptionChar (c : Char) : Bool :=
  c.isAlpha || c.isDigit || c == ','

/-- `[A-Za-z0-9:\s]`. -/
def isTagChar (c : Char) : Bool :=
  c.isAlpha || c.isDigit || c == ':' || isWsChar c

/-- The mountinfo line pattern from src/lib.rs line 30, group for group. -/
def mountinfoRE : RE :=
  .cat (.grp 1 (.star Char.isDigit)) <|
  .cat (.ch isWsChar) <|
  .cat (.grp 2 (.star Char.isDigit)) <|
  .cat (.ch isWsChar) <|
  .cat (.grp 3 (.cat (.star Char.isDigit) (.cat (.ch (fun c => c == ':')) (.star Char.isDigit)))) <|
  .cat (.ch isWsChar) <|
  .cat (.grp 4 (.star (fun c => !isWsChar c))) <|
  .cat (.ch isWsChar) <|
  .cat (.grp 5 (.star (fun c => !isWsChar c))) <|
  .cat (.ch isWsChar) <|
  .cat (.grp 6 (.star isOptionChar)) <|
  .cat (.ch isWsChar) <|
  .cat (.grp 7 (.star isTagChar)) <|
  .cat (.ch isWsChar) <|
  .cat (.ch (fun c => c == '-')) <|
  .cat (.ch (fun c => c == ' ')) <|
  .cat (.grp 8 (.star (fun c => !isWsChar c))) <|
  .cat (.ch isWsChar) <|
  .cat (.grp 9 (.star (fun c => !isWsChar c))) <|
  (.grp 10 (.star (fun c => c != '\n')))

/-- `re.captures(&line)` for the mountinfo pattern. -/
def lineCaptures (line : String) : Option (List (Nat × String)) :=
  reFind mountinfoRE line.data

/-- `re.is_match(&line)` for the mountinfo pattern. -/
def lineMatches (line : String) : Bool :=
  (lineCaptures line).isSome

/-! ## MountInfo (src/lib.rs lines 12-57) -/

/-- `MountInfo`: the `HashMap<String, Vec<String>>` from id (`major:minor`)
to mount points, embedded as an association list. -/
structure MountInfo where
  info : List (String × List String)
deriving Repr, DecidableEq

/-- `info.get(&id)` on the embedded map. -/
def infoGet (m : List (String × List String)) (id : String) : Option (List String) :=
  (m.find? (fun e => e.1 == id)).map (fun e => e.2)

/-- The update applied to the entry of key `id`:
`info.get_mut(&id).unwrap().push(mount_point)` (src/lib.rs line 40),
expressed pointwise over the association list. -/
def pushIf (id mp : String) (e : String × List String) : String × List String :=
  if e.1 == id then (e.1, e.2 ++ [mp]) else e

/-- The per-line map update of `MountInfo::parse` (src/lib.rs lines 39-43):
push onto the existing entry when the key is present, otherwise insert a
fresh singleton entry. -/
def infoInsert (m : List (String × List String)) (id mp : String) :
    List (String × List String) :=
  if m.any (fun e => e.1 == id) then m.map (pushIf id mp)
  else m ++ [(id, [mp])]

/-- Processing of a single mountinfo line (src/lib.rs lines 30-37): panic
when the regex does not match, otherwise extract capture groups 3 (id)
and 5 (mount point).  `&caps[n]` on an unset group would also panic. -/
def parseLine (l : String) : Except String (String × String) :=
  match lineCaptures l with
  | none => .error ("mountinfo parse error, " ++ l)
  | some caps =>
    match capsGet caps 3, capsGet caps 5 with
    | some id, some mp => .ok (id, mp)
    | _, _ => .error ("capture group missing, " ++ l)

/-- The line loop of `MountInfo::parse` (src/lib.rs lines 25-44). -/
def MountInfo.parseAux (m : List (String × List String)) :
    List String → Except String MountInfo
  | [] => .ok ⟨m⟩
  | l :: ls =>
    match parseLine l with
    | .error e => .error e
    | .ok (id, mp) => MountInfo.parseAux (infoInsert m id mp) ls

/-- `MountInfo::parse` (src/lib.rs lines 18-47), over the list of lines of
`/proc/self/mountinfo`. -/
def MountInfo.parse (lines : List String) : Except String MountInfo :=
  MountInfo.parseAux [] lines

/-- `MountInfo::get_mount_points_by_id` (src/lib.rs lines 49-56). -/
def MountInfo.get_mount_points_by_id (mi : MountInfo) (id : String) : List String :=
  match infoGet mi.info id with
  | some result => result
  | none => []

/-- Specification-side view of one line: the (id, mount point) pair the
parser extracts, `none` when the line is rejected. -/
def lineIdMp (l : String) : Option (String × String) :=
  match lineCaptures l with
  | none => none
  | some caps =>
    match capsGet caps 3, capsGet caps 5 with
    | some id, some mp => some (id, mp)
    | _, _ => none

/-- The mount points carried by the lines of `ls` whose id field is `q`,
in file order. -/
def pointsOf (ls : List String) (q : String) : List String :=
  (ls.filterMap lineIdMp).filterMap (fun e => if e.1 = q then some e.2 else none)

deriving instance DecidableEq for Except

theorem pushIf_fst (id mp : String) (e : String × List String) :
    (pushIf id mp e).1 = e.1 := by
  unfold pushIf
  by_cases h : e.1 == id <;> simp [h]

theorem find?_pushMap (t : List (String × List String)) (id mp q : String) :
    (t.map (pushIf id mp)).find? (fun e => e.1 == q) =
    (t.find? (fun e => e.1 == q)).map (pushIf id mp) := by
  induction t with
  | nil => rfl
  | cons e t ih =>
    rw [List.map_cons, List.find?_cons, List.find?_cons]
    simp only [pushIf_fst]
    cases hbe : (e.1 == q) <;> simp [ih]

theorem infoGet_insert (m : List (String × List String)) (id mp q : String) :
    infoGet (infoInsert m id mp) q =
      if q = id then some (((infoGet m q).getD []) ++ [mp]) else infoGet m q := by
  unfold infoInsert infoGet
  by_cases hmem : m.any (fun e => e.1 == id)
  · rw [if_pos hmem, find?_pushMap]
    by_cases hq : q = id
    · subst hq
      have hs : (m.find? (fun x => x.1 == q)).isSome := by
        rw [List.find?_isSome]
        obtain ⟨x, hx, hpx⟩ := List.any_eq_true.mp hmem
        exact ⟨x, hx, hpx⟩
      obtain ⟨e, hfind⟩ := Option.isSome_iff_exists.mp hs
      have he := List.find?_some hfind
      simp only [] at he
      simp [hfind, pushIf, he]
    · cases hfind : m.find? (fun x => x.1 == q) with
      | none => simp [hq]
      | some e =>
        have he : e.1 = q := by simpa using List.find?_some hfind
        have hne : (e.1 == id) = false := by simp [he, hq]
        simp [hq, pushIf, hne]
  · rw [if_neg hmem, List.find?_append]
    have hnone : m.find? (fun x => x.1 == id) = none := by
      rw [List.find?_eq_none]
      intro x hx hpx
      exact hmem (List.any_eq_true.mpr ⟨x, hx, hpx⟩)
    by_cases hq : q = id
    · subst hq
      simp [hnone, List.find?, Option.or]
    · cases hfind : m.find? (fun x => x.1 == q) with
      | none =>
        have hne : ¬((id == q) = true) := by simp [Ne.symm hq]
        simp [hfind, hq, List.find?, hne, Option.or]
      | some e => simp [hfind, hq, Option.or]

theorem get_insert (m : List (String × List String)) (id mp q : String) :
    MountInfo.get_mount_points_by_id ⟨infoInsert m id mp⟩ q =
      MountInfo.get_mount_points_by_id ⟨m⟩ q ++ (if id = q then [mp] else []) := by
  unfold MountInfo.get_mount_points_by_id
  rw [infoGet_insert]
  by_cases hq : q = id
  · subst hq
    cases h : infoGet m q <;> simp [h]
  · cases h : infoGet m q <;> simp [h, hq, Ne.symm hq]

/-- `parseLine` and `lineIdMp` agree on accepted lines. -/
theorem parseLine_ok_iff (l : String) (e : String × String) :
    parseLine l = .ok e ↔ lineIdMp l = some e := by
  unfold parseLine lineIdMp
  cases h : lineCaptures l with
  | none => simp
  | some caps =>
    cases h3 : capsGet caps 3 <;> cases h5 : capsGet caps 5 <;> simp [h3, h5]

/-- `parseLine` rejects exactly the lines `lineIdMp` rejects. -/
theorem parseLine_err_iff (l : String) :
    (∃ msg, parseLine l = .error msg) ↔ lineIdMp l = none := by
  unfold parseLine lineIdMp
  cases h : lineCaptures l with
  | none => simp
  | some caps =>
    cases h3 : capsGet caps 3 <;> cases h5 : capsGet caps 5 <;> simp [h3, h5]

/-- The parse loop, started from any accumulated map, succeeds on a list
of accepted lines and extends every id entry by the mount points of its
lines, in file order. -/
theorem parseAux_spec (ls : List String) :
    ∀ m, (∀ l ∈ ls, (lineIdMp l).isSome) →
      ∃ mi, MountInfo.parseAux m ls = .ok mi ∧
        ∀ q, mi.get_mount_points_by_id q =
          MountInfo.get_mount_points_by_id ⟨m⟩ q ++ pointsOf ls q := by
  induction ls with
  | nil =>
    intro m _
    exact ⟨⟨m⟩, rfl, fun q => by simp [pointsOf]⟩
  | cons l ls ih =>
    intro m hall
    have hl : (lineIdMp l).isSome := hall l (by simp)
    obtain ⟨⟨i, p⟩, he⟩ := Option.isSome_iff_exists.mp hl
    have hpl : parseLine l = .ok (i, p) := (parseLine_ok_iff l (i, p)).mpr he
    obtain ⟨mi, hmi, hq⟩ := ih (infoInsert m i p)
      (fun x hx => hall x (by simp [hx]))
    refine ⟨mi, ?_, ?_⟩
    · unfold MountInfo.parseAux
      rw [hpl]
      exact hmi
    · intro q
      rw [hq q, get_insert]
      have hpt : pointsOf (l :: ls) q =
          (if i = q then [p] else []) ++ pointsOf ls q := by
        unfold pointsOf
        rw [List.filterMap_cons, he]
        by_cases h : i = q <;> simp [h]
      rw [hpt, List.append_assoc]

/-- A successful parse means every line was accepted. -/
theorem parse_ok_all (ls : List String) :
    ∀ m mi, MountInfo.parseAux m ls = .ok mi → ∀ l ∈ ls, (lineIdMp l).isSome := by
  induction ls with
  | nil => intro _ _ _ l hl; cases hl
  | cons l ls ih =>
    intro m mi hok x hx
    unfold MountInfo.parseAux at hok
    cases hpl : parseLine l with
    | error msg => rw [hpl] at hok; cases hok
    | ok e =>
      rw [hpl] at hok
      rcases List.mem_cons.mp hx with h | h
      · subst h
        rw [Option.isSome_iff_exists]
        exact ⟨e, (parseLine_ok_iff x e).mp hpl⟩
      · exact ih _ _ hok x h

/-! ## Claim C2 -/

/-- C2: for every well-formed set of mount-table lines (each line accepted
by the parser) and every device identifier string `id`,
`get_mount_points_by_id id` on the built table returns exactly the
mount-point fields of the lines whose major:minor identifier equals `id`,
in the order those lines occur in the file; an id occurring on no line
yields the empty sequence (`pointsOf` is empty for it). -/
theorem C2_lookup_spec (lines : List String)
    (hwf : ∀ l ∈ lines, (lineIdMp l).isSome) (id : String) :
    ∃ mi, MountInfo.parse lines = .ok mi ∧
      mi.get_mount_points_by_id id = pointsOf lines id := by
  obtain ⟨mi, h1, h2⟩ := parseAux_spec lines [] hwf
  refine ⟨mi, h1, ?_⟩
  have h3 := h2 id
  simpa [MountInfo.get_mount_points_by_id, infoGet] using h3

/-- Witness for C2: a concrete three-line table in which id 8:1 occurs on
the first and third line (a bind-mount pattern) and id 7:7 occurs on no
line. -/
theorem C2_lookup_spec_witness :
    ∃ mi, MountInfo.parse
        ["40 25 8:1 / /mnt/a rw shared:5 - ext4 /dev/sda1 rw",
         "41 25 0:30 / /tmp rw shared:6 - tmpfs tmpfs rw",
         "42 25 8:1 / /mnt/b rw shared:5 - ext4 /dev/sda1 rw"] = .ok mi ∧
      mi.get_mount_points_by_id "8:1" = ["/mnt/a", "/mnt/b"] ∧
      mi.get_mount_points_by_id "7:7" = [] := by
  obtain ⟨mi, h1, h2⟩ := C2_lookup_spec
    ["40 25 8:1 / /mnt/a rw shared:5 - ext4 /dev/sda1 rw",
     "41 25 0:30 / /tmp rw shared:6 - tmpfs tmpfs rw",
     "42 25 8:1 / /mnt/b rw shared:5 - ext4 /dev/sda1 rw"] (by decide) "8:1"
  obtain ⟨mi2, h12, h22⟩ := C2_lookup_spec
    ["40 25 8:1 / /mnt/a rw shared:5 - ext4 /dev/sda1 rw",
     "41 25 0:30 / /tmp rw shared:6 - tmpfs tmpfs rw",
     "42 25 8:1 / /mnt/b rw shared:5 - ext4 /dev/sda1 rw"] (by decide) "7:7"
  rw [h1] at h12
  injection h12 with h12
  subst h12
  exact ⟨mi, h1, h2.trans (by decide), h22.trans (by decide)⟩

/-! ## Claim C8 -/

/-- C8: the mount-table parser of src/lib.rs, evaluated at the
zero-optional-tag mountinfo line of the kernel documentation.  The line
is well-formed kernel output with zero optional tag fields, yet the regex
requires two whitespace characters between the options field and the
separator, so `MountInfo::parse` panics on it (first conjunct) instead of
accepting it as the claim states.  The other two conjuncts confirm the
parts of the claim the code does satisfy: a line with optional tag fields
is accepted, and a line missing the separator field fails fatally. -/
theorem C8_zero_tag_line_parse_error :
    MountInfo.parse
        ["36 35 98:0 /mnt1 /mnt2 rw,noatime - ext3 /dev/root rw,errors=continue"] =
      .error ("mountinfo parse error, 36 35 98:0 /mnt1 /mnt2 rw,noatime - ext3 /dev/root rw,errors=continue") ∧
    (MountInfo.parse
        ["31 22 0:27 / /x rw,relatime shared:12 master:1 - tmpfs tmpfs rw"]).isOk = true ∧
    lineMatches "36 35 98:0 /mnt1 /mnt2 rw,noatime ext3 /dev/root rw" = false := by
  exact ⟨by decide, by decide, by decide⟩

/-! ## PartitionDevice and the device classifier (src/lib.rs lines 63-221)

The udev library is an external input.  A `UdevDeviceBase` records, for
one block device, exactly the observations `PartitionDevice::from_device`
makes of it:

* `properties`: the property set collected by `get_device_properties`
  (src/lib.rs lines 76-85); lookup takes the last binding of a name,
  matching `HashMap` insertion order during iteration.
* `is_usb_device`: the result of `check_is_usb_device` (src/lib.rs lines
  87-93), i.e. whether `parent_with_subsystem("usb")` returned
  `Ok(Some(_))`.
* `devnode`, `sizeAttr`, `devAttr`: the devnode path and the `size` and
  `dev` sysfs attribute values, `none` when absent (which the source
  turns into a panic via `expect`/`unwrap`).
* `syspath`: used only in panic messages.

A full `UdevDevice` additionally carries the `slaves` directory listing
(src/lib.rs lines 140-151): one entry per `read_dir` result, in listing
order, `some s` for an entry that resolves to a device and `none` for an
`Err` entry. -/

structure UdevDeviceBase where
  properties : List (String × String)
  is_usb_device : Bool
  devnode : Option String
  sizeAttr : Option String
  devAttr : Option String
  syspath : String
deriving Repr, DecidableEq

structure UdevDevice extends UdevDeviceBase where
  slaves : List (Option UdevDeviceBase)
deriving Repr, DecidableEq

/-- Property lookup on the collected `HashMap`: iteration inserts in
order, so a duplicated name keeps its last value. -/
def propGet (props : List (String × String)) (k : String) : Option String :=
  ((props.filter (fun e => e.1 == k)).map (fun e => e.2)).getLast?

/-- Decimal value of a digit string. -/
def digitsVal : List Char → Nat → Nat
  | [], acc => acc
  | c :: t, acc => digitsVal t (acc * 10 + (c.toNat - 48))

/-- `u64` parsing of the sysfs `size` attribute:
`to_string_lossy().parse::<u64>()`.  A nonempty all-digit string within
the `u64` range parses; anything else is a parse error.  (Rust would also
accept a leading `+`, which sysfs integer attributes never carry.) -/
def parseU64 (s : String) : Option Nat :=
  if s.data.isEmpty then none
  else if s.data.all Char.isDigit then
    if digitsVal s.data 0 < 18446744073709551616 then some (digitsVal s.data 0)
    else none
  else none

/-- The slave-resolution loop (src/lib.rs lines 145-151): iterate the
directory listing and keep the LAST entry that is `Ok`. -/
def resolveSlave (slaves : List (Option UdevDeviceBase)) : Option UdevDeviceBase :=
  slaves.foldl (fun acc e => match e with | some s => some s | none => acc) none

/-- `PartitionDevice` (src/lib.rs lines 63-73).  `partition_size` is the
`u64` product sector count * 512 (reduced mod 2^64, release semantics). -/
structure PartitionDevice where
  dev_path : String
  partition_label : Option String
  partition_filesystem : String
  partition_size : Nat
  usb_model_name : Option String
  mounted_points : List String
deriving Repr, DecidableEq

/-- Construction of the `PartitionDevice` record common to the two
classified branches (src/lib.rs lines 105-136 and 165-198); the branches
differ only in where `usb_model_name` comes from, passed here as
`modelProps`. -/
def buildPartition (mi : MountInfo) (device : UdevDevice) (fsType : String)
    (modelProps : List (String × String)) : Except String (Option PartitionDevice) :=
  match device.devnode with
  | none => .error ("DEVNAME for device " ++ device.syspath ++ " get failed")
  | some dev_path =>
    match device.sizeAttr with
    | none => .error ("size attribute for device " ++ device.syspath ++ " get failed")
    | some sizeStr =>
      match parseU64 sizeStr with
      | none => .error ("size attribute parse for device " ++ device.syspath ++ " failed")
      | some sectors =>
        match device.devAttr with
        | none => .error ("device id for device " ++ device.syspath ++ " get failed")
        | some devId =>
          .ok (some {
            dev_path := dev_path,
            partition_label := propGet device.properties "ID_FS_LABEL",
            partition_filesystem := fsType,
            partition_size := sectors * 512 % 18446744073709551616,
            usb_model_name := propGet modelProps "ID_MODEL",
            mounted_points := mi.get_mount_points_by_id devId })

/-- `PartitionDevice::from_device` (src/lib.rs lines 95-202).  `.error`
embeds a panic; `.ok none` is the silent exclusion of a device that is
not a USB-backed partition. -/
def PartitionDevice.from_device (mi : MountInfo) (device : UdevDevice) :
    Except String (Option PartitionDevice) :=
  match propGet device.properties "ID_FS_TYPE" with
  | none => .ok none
  | some fsType =>
    if device.is_usb_device then
      buildPartition mi device fsType device.properties
    else if (propGet device.properties "DM_NAME").isSome then
      match resolveSlave device.slaves with
      | none => .ok none
      | some parent =>
        if parent.is_usb_device then
          buildPartition mi device fsType parent.properties
        else
          .ok none
    else
      .ok none

/-- `get_available_partition_devices` (src/lib.rs lines 205-221) over the
block-subsystem enumeration `devs`. -/
def get_available_partition_devices (mi : MountInfo) :
    List UdevDevice → Except String (List PartitionDevice)
  | [] => .ok []
  | d :: ds =>
    match PartitionDevice.from_device mi d with
    | .error e => .error e
    | .ok none => get_available_partition_devices mi ds
    | .ok (some pd) =>
      match get_available_partition_devices mi ds with
      | .error e => .error e
      | .ok rest => .ok (pd :: rest)

/-- The required attributes of a device that passes classification, whose
absence the source turns into a panic. -/
def requiredAttrs (d : UdevDevice) : Bool :=
  d.devnode.isSome && (match d.sizeAttr with
    | some s => (parseU64 s).isSome
    | none => false) && d.devAttr.isSome

/-- The classification predicate implemented by `from_device`: a
filesystem-type property, plus either a USB ancestor or a device-mapper
name with a USB-backed resolved slave. -/
def classified (d : UdevDevice) : Bool :=
  (propGet d.properties "ID_FS_TYPE").isSome &&
  (d.is_usb_device ||
    ((propGet d.properties "DM_NAME").isSome &&
      (match resolveSlave d.slaves with
       | some s => s.is_usb_device
       | none => false)))

/-- Where `usb_model_name` is read from: the device itself in the direct
USB branch, the resolved slave in the device-mapper branch. -/
def modelSource (d : UdevDevice) : List (String × String) :=
  if d.is_usb_device then d.properties
  else
    match resolveSlave d.slaves with
    | some s => s.properties
    | none => []

/-- The record `from_device` produces for a classified device, with the
attribute unwraps written as defaulted reads (the defaults are dead under
`requiredAttrs`). -/
def classifiedPartition (mi : MountInfo) (d : UdevDevice) : PartitionDevice :=
  { dev_path := d.devnode.getD "",
    partition_label := propGet d.properties "ID_FS_LABEL",
    partition_filesystem := (propGet d.properties "ID_FS_TYPE").getD "",
    partition_size := ((d.sizeAttr.bind parseU64).getD 0) * 512 % 18446744073709551616,
    usb_model_name := propGet (modelSource d) "ID_MODEL",
    mounted_points := mi.get_mount_points_by_id (d.devAttr.getD "") }

theorem getLast?_cons_or {α : Type} (a : α) (xs : List α) :
    (a :: xs).getLast? = (xs.getLast?).or (some a) := by
  cases xs with
  | nil => rfl
  | cons b t =>
    rw [List.getLast?_cons_cons]
    cases h : (b :: t).getLast? with
    | none => simp at h
    | some x => rfl

/-- The slave loop keeps the last `Ok` entry of the listing. -/
theorem resolveSlave_getLast (slaves : List (Option UdevDeviceBase)) :
    resolveSlave slaves = (slaves.filterMap id).getLast? := by
  unfold resolveSlave
  suffices hgen : ∀ (l : List (Option UdevDeviceBase)) (acc : Option UdevDeviceBase),
      l.foldl (fun acc e => match e with | some s => some s | none => acc) acc =
        ((l.filterMap id).getLast?).or acc by
    rw [hgen slaves none]
    cases h : (slaves.filterMap id).getLast? <;> rfl
  intro l
  induction l with
  | nil => intro acc; rfl
  | cons e t ih =>
    intro acc
    cases e with
    | none => rw [List.foldl_cons, List.filterMap_cons]; exact ih acc
    | some s =>
      rw [List.foldl_cons, List.filterMap_cons]
      show t.foldl _ (some s) = ((s :: t.filterMap id).getLast?).or acc
      rw [ih (some s), getLast?_cons_or]
      cases h : (t.filterMap id).getLast? <;> rfl

/-- Under the required attributes, `from_device` returns the classified
record exactly when the classification predicate holds, and silently
returns nothing otherwise. -/
theorem from_device_eq (mi : MountInfo) (d : UdevDevice)
    (h : requiredAttrs d = true) :
    PartitionDevice.from_device mi d =
      .ok (if classified d then some (classifiedPartition mi d) else none) := by
  simp only [requiredAttrs, Bool.and_eq_true] at h
  obtain ⟨⟨h1, h2⟩, h3⟩ := h
  obtain ⟨dp, hdp⟩ := Option.isSome_iff_exists.mp h1
  obtain ⟨di, hdi⟩ := Option.isSome_iff_exists.mp h3
  cases hss : d.sizeAttr with
  | none => rw [hss] at h2; cases h2
  | some ss =>
  rw [hss] at h2
  obtain ⟨n, hn⟩ := Option.isSome_iff_exists.mp h2
  unfold PartitionDevice.from_device classified classifiedPartition modelSource buildPartition
  cases hfs : propGet d.properties "ID_FS_TYPE" with
  | none => simp [hfs]
  | some fs =>
    cases husb : d.is_usb_device with
    | true => simp [hfs, husb, hdp, hss, hn, hdi]
    | false =>
      cases hdm : (propGet d.properties "DM_NAME").isSome with
      | false => simp [hfs, husb, hdm]
      | true =>
        cases hrs : resolveSlave d.slaves with
        | none => simp [hfs, husb, hdm, hrs]
        | some parent =>
          cases hpu : parent.is_usb_device with
          | true => simp [hfs, husb, hdm, hrs, hpu, hdp, hss, hn, hdi]
          | false => simp [hfs, husb, hdm, hrs, hpu]

/-- Under the required attributes, the enumeration never panics and its
inventory is the filter-map of the per-device classification. -/
theorem gapd_eq (mi : MountInfo) (devs : List UdevDevice)
    (hattrs : ∀ d ∈ devs, requiredAttrs d = true) :
    get_available_partition_devices mi devs =
      .ok (devs.filterMap (fun d =>
        if classified d then some (classifiedPartition mi d) else none)) := by
  induction devs with
  | nil => rfl
  | cons d ds ih =>
    have hd := from_device_eq mi d (hattrs d (by simp))
    have hds := ih (fun x hx => hattrs x (by simp [hx]))
    unfold get_available_partition_devices
    rw [hd, List.filterMap_cons]
    cases hc : classified d with
    | false => simp [hds]
    | true => simp [hds]

/-- Transcription of the inventory condition as claim C1 words it: a
filesystem-type property, and either a USB-subsystem ancestor or a
device-mapper device whose sole resolvable slave has one.  To be compared
with `classified`, the predicate the source implements. -/
def specUsbBackedPartition (d : UdevDevice) : Prop :=
  (propGet d.properties "ID_FS_TYPE").isSome ∧
  (d.is_usb_device = true ∨
    ((propGet d.properties "DM_NAME").isSome ∧
      ∃ s, d.slaves.filterMap id = [s] ∧ s.is_usb_device = true))

/-- When a device has at most one resolvable slave, the code predicate
coincides with the claim's sole-slave wording. -/
theorem classified_iff_sole (d : UdevDevice)
    (hsole : (d.slaves.filterMap id).length ≤ 1) :
    classified d = true ↔ specUsbBackedPartition d := by
  unfold classified specUsbBackedPartition
  rw [resolveSlave_getLast]
  simp only [Bool.and_eq_true, Bool.or_eq_true]
  cases hl : d.slaves.filterMap id with
  | nil => simp
  | cons s t =>
    rw [hl] at hsole
    have ht : t = [] := by
      cases t with
      | nil => rfl
      | cons x xs => simp at hsole
    subst ht
    simp

/-! ## Claim C1 -/

/-- C1: under the required sysfs attributes and at most one resolvable
slave per device, the enumeration succeeds, its inventory consists
exactly of the per-device classification results, and a device yields an
inventory entry if and only if it reports a filesystem-type property and
either has a USB ancestor or is a device-mapper device whose sole
resolvable slave has one; a device failing the condition is silently
omitted (`ok none`), not reported as an error. -/
theorem C1_inventory_iff (mi : MountInfo) (devs : List UdevDevice)
    (hattrs : ∀ d ∈ devs, requiredAttrs d = true)
    (hsole : ∀ d ∈ devs, (d.slaves.filterMap id).length ≤ 1) :
    ∃ inv, get_available_partition_devices mi devs = .ok inv ∧
      inv = devs.filterMap (fun d =>
        match PartitionDevice.from_device mi d with
        | .ok r => r
        | .error _ => none) ∧
      ∀ d ∈ devs,
        ((∃ pd, PartitionDevice.from_device mi d = .ok (some pd)) ↔
          specUsbBackedPartition d) ∧
        (¬ specUsbBackedPartition d →
          PartitionDevice.from_device mi d = .ok none) := by
  refine ⟨_, gapd_eq mi devs hattrs, ?_, ?_⟩
  · apply List.filterMap_congr
    intro d hd
    rw [from_device_eq mi d (hattrs d hd)]
  · intro d hd
    have heq := from_device_eq mi d (hattrs d hd)
    have hiff := classified_iff_sole d (hsole d hd)
    constructor
    · constructor
      · rintro ⟨pd, hpd⟩
        rw [heq] at hpd
        by_cases hc : classified d
        · exact hiff.mp hc
        · rw [if_neg hc] at hpd; cases hpd
      · intro hspec
        rw [heq, if_pos (hiff.mpr hspec)]
        exact ⟨_, rfl⟩
    · intro hnspec
      rw [heq, if_neg (fun hc => hnspec (hiff.mp hc))]

/-! ## Claims C6 and C7 -/

/-- C6: a device classified through its own USB ancestor gets
`usb_model_name` from its own `ID_MODEL` property; a device-mapper device
classified through a USB-backed resolved slave gets `usb_model_name` from
the slave's `ID_MODEL` property, not its own. -/
theorem C6_model_attribution (mi : MountInfo) (du dm : UdevDevice)
    (s : UdevDeviceBase)
    (hu0 : requiredAttrs du = true) (hu1 : du.is_usb_device = true)
    (hu2 : (propGet du.properties "ID_FS_TYPE").isSome = true)
    (hm0 : requiredAttrs dm = true) (hm1 : dm.is_usb_device = false)
    (hm2 : (propGet dm.properties "ID_FS_TYPE").isSome = true)
    (hm3 : (propGet dm.properties "DM_NAME").isSome = true)
    (hm4 : resolveSlave dm.slaves = some s) (hm5 : s.is_usb_device = true) :
    (∃ pd, PartitionDevice.from_device mi du = .ok (some pd) ∧
      pd.usb_model_name = propGet du.properties "ID_MODEL") ∧
    (∃ pd, PartitionDevice.from_device mi dm = .ok (some pd) ∧
      pd.usb_model_name = propGet s.properties "ID_MODEL") := by
  constructor
  · have hc : classified du = true := by
      unfold classified
      rw [hu1, hu2]
      rfl
    rw [from_device_eq mi du hu0, if_pos hc]
    refine ⟨_, rfl, ?_⟩
    unfold classifiedPartition modelSource
    rw [hu1]
    simp
  · have hc : classified dm = true := by
      unfold classified
      rw [hm1, hm2, hm3, hm4]
      simp [hm5]
    rw [from_device_eq mi dm hm0, if_pos hc]
    refine ⟨_, rfl, ?_⟩
    unfold classifiedPartition modelSource
    rw [hm1, hm4]
    simp
  
/-- C7: a device-mapper device exposing more than one resolvable slave
resolves exactly one of them, the one the directory listing yields last,
and uses only it for the USB-ancestry test and the model attribution. -/
theorem C7_last_slave (mi : MountInfo) (d : UdevDevice)
    (h0 : requiredAttrs d = true) (h1 : d.is_usb_device = false)
    (h2 : (propGet d.properties "ID_FS_TYPE").isSome = true)
    (h3 : (propGet d.properties "DM_NAME").isSome = true)
    (hmulti : 1 < (d.slaves.filterMap id).length) :
    ∃ s, resolveSlave d.slaves = some s ∧
      (d.slaves.filterMap id).getLast? = some s ∧
      (s.is_usb_device = true →
        ∃ pd, PartitionDevice.from_device mi d = .ok (some pd) ∧
          pd.usb_model_name = propGet s.properties "ID_MODEL") ∧
      (s.is_usb_device = false →
        PartitionDevice.from_device mi d = .ok none) := by
  have hne : d.slaves.filterMap id ≠ [] := by
    intro h
    rw [h] at hmulti
    simp at hmulti
  have hsome : ((d.slaves.filterMap id).getLast?).isSome := by
    rwa [List.getLast?_isSome]
  obtain ⟨s, hs⟩ := Option.isSome_iff_exists.mp hsome
  have hrs : resolveSlave d.slaves = some s := by
    rw [resolveSlave_getLast]
    exact hs
  refine ⟨s, hrs, hs, ?_, ?_⟩
  · intro husb
    have hc : classified d = true := by
      unfold classified
      rw [h1, h2, h3, hrs]
      simp [husb]
    rw [from_device_eq mi d h0, if_pos hc]
    refine ⟨_, rfl, ?_⟩
    unfold classifiedPartition modelSource
    rw [h1, hrs]
    simp
  · intro husb
    have hc : classified d = false := by
      unfold classified
      rw [h1, h2, h3, hrs]
      simp [husb]
    rw [from_device_eq mi d h0, if_neg (by rw [hc]; exact Bool.false_ne_true)]

/-! Concrete sample devices used by the witnesses. -/

/-- A USB-backed whole-disk device, slave of the dm samples. -/
def slaveSample : UdevDeviceBase :=
  { properties := [("ID_MODEL", "SanDisk_Ultra")],
    is_usb_device := true,
    devnode := some "/dev/sdb",
    sizeAttr := some "1000",
    devAttr := some "8:16",
    syspath := "/sys/devices/usb1/sdb" }

/-- A non-USB whole-disk device, first slave of the two-slave dm sample. -/
def slaveAltSample : UdevDeviceBase :=
  { properties := [("ID_MODEL", "Internal_Disk")],
    is_usb_device := false,
    devnode := some "/dev/sda",
    sizeAttr := some "500",
    devAttr := some "8:0",
    syspath := "/sys/devices/pci0/sda" }

/-- A partition directly on a USB device. -/
def devUsbSample : UdevDevice :=
  { properties := [("ID_FS_TYPE", "vfat"), ("ID_FS_LABEL", "STICK"),
      ("ID_MODEL", "Cruzer_Blade")],
    is_usb_device := true,
    devnode := some "/dev/sdb1",
    sizeAttr := some "2048",
    devAttr := some "8:17",
    syspath := "/sys/devices/usb1/sdb/sdb1",
    slaves := [] }

/-- A device-mapper device over the single USB-backed slave. -/
def devDmSample : UdevDevice :=
  { properties := [("ID_FS_TYPE", "ext4"), ("DM_NAME", "crypt0"),
      ("ID_MODEL", "MapperSelfModel")],
    is_usb_device := false,
    devnode := some "/dev/dm-0",
    sizeAttr := some "4096",
    devAttr := some "253:0",
    syspath := "/sys/devices/virtual/block/dm-0",
    slaves := [some slaveSample] }

/-- A device-mapper device listing two resolvable slaves (and one
unreadable entry); the USB-backed one is listed last. -/
def devDm2Sample : UdevDevice :=
  { properties := [("ID_FS_TYPE", "ext4"), ("DM_NAME", "lvm0"),
      ("ID_MODEL", "MapperSelfModel")],
    is_usb_device := false,
    devnode := some "/dev/dm-1",
    sizeAttr := some "8192",
    devAttr := some "253:1",
    syspath := "/sys/devices/virtual/block/dm-1",
    slaves := [some slaveAltSample, none, some slaveSample] }

/-- A device with no filesystem-type property. -/
def devPlainSample : UdevDevice :=
  { properties := [("ID_PART_TABLE_TYPE", "dos")],
    is_usb_device := true,
    devnode := some "/dev/sda1",
    sizeAttr := some "2048",
    devAttr := some "8:1",
    syspath := "/sys/devices/pci0/sda/sda1",
    slaves := [] }

/-- A sample mount table. -/
def miSample : MountInfo :=
  ⟨[("8:17", ["/mnt/stick"])]⟩

/-- Witness for C1: over a USB partition and a filesystem-less device the
enumeration returns exactly the classified record of the former. -/
theorem C1_inventory_iff_witness :
    ∃ inv, get_available_partition_devices miSample [devUsbSample, devPlainSample] = .ok inv ∧
      inv = [classifiedPartition miSample devUsbSample] := by
  obtain ⟨inv, h1, h2, _⟩ := C1_inventory_iff miSample [devUsbSample, devPlainSample]
    (by decide) (by decide)
  refine ⟨inv, h1, ?_⟩
  rw [h2]
  decide

/-- Witness for C6: the direct-USB sample reports its own model, the
device-mapper sample reports its slave's model. -/
theorem C6_model_attribution_witness :
    (∃ pd, PartitionDevice.from_device miSample devUsbSample = .ok (some pd) ∧
      pd.usb_model_name = some "Cruzer_Blade") ∧
    (∃ pd, PartitionDevice.from_device miSample devDmSample = .ok (some pd) ∧
      pd.usb_model_name = some "SanDisk_Ultra") := by
  obtain ⟨hA, hB⟩ := C6_model_attribution miSample devUsbSample devDmSample slaveSample
    (by decide) (by decide) (by decide) (by decide) (by decide) (by decide)
    (by decide) (by decide) (by decide)
  constructor
  · obtain ⟨pd, hpd, hm⟩ := hA
    exact ⟨pd, hpd, hm.trans (by decide)⟩
  · obtain ⟨pd, hpd, hm⟩ := hB
    exact ⟨pd, hpd, hm.trans (by decide)⟩

/-- Witness for C7: with two resolvable slaves the classifier uses the
last-listed (USB-backed) one, ignoring the first (non-USB) one, and takes
the model name from it. -/
theorem C7_last_slave_witness :
    ∃ s, resolveSlave devDm2Sample.slaves = some s ∧ s = slaveSample ∧
      ∃ pd, PartitionDevice.from_device miSample devDm2Sample = .ok (some pd) ∧
        pd.usb_model_name = some "SanDisk_Ultra" := by
  obtain ⟨s, hs1, hs2, hs3, _⟩ := C7_last_slave miSample devDm2Sample
    (by decide) (by decide) (by decide) (by decide) (by decide)
  have hseq : s = slaveSample := by
    have h := hs2.symm.trans (show (devDm2Sample.slaves.filterMap id).getLast? = some slaveSample by decide)
    injection h
  subst hseq
  obtain ⟨pd, hpd, hm⟩ := hs3 (by decide)
  exact ⟨slaveSample, hs1, rfl, pd, hpd, hm.trans (by decide)⟩

/-! ## The command layer (src/main.rs)

The filesystem, the mount/umount syscalls, the interactive selector and
the identity environment are external; `Env` carries the observations
main.rs makes of them:

* `pathExists p`: `Path::new(p).exists()`.
* `umountOk p`: whether `unmount(p, UnmountFlags::empty())` succeeds.
* `mountOk dev path opts`: whether `Mount::new(dev, path, .., opts)`
  succeeds.
* `pick n`: the interactive selection among `n` items —
  `some i` for `Ok(Some(i))`, `none` for cancellation (`Ok(None)`/`Err`).
* `sudoUser`, `sudoUid`, `sudoGid`: the `SUDO_USER`/`SUDO_UID`/`SUDO_GID`
  environment variables; `whoamiUser`: `whoami::username()`; `euid`,
  `egid`: the effective ids.

Directory creation, marker-file creation and removal are assumed to
succeed (their failure is a process abort in the source); the actions the
code performs are recorded in an explicit `FsAction` trace so that
theorems can state which mutations happen. -/

structure Env where
  pathExists : String → Bool
  umountOk : String → Bool
  mountOk : String → String → String → Bool
  pick : Nat → Option Nat
  sudoUser : Option String
  sudoUid : Option String
  sudoGid : Option String
  whoamiUser : String
  euid : Nat
  egid : Nat

/-- The filesystem-mutating calls main.rs makes, in program order. -/
inductive FsAction where
  | createDirAll (p : String)
  | createFile (p : String)
  | tryMount (dev path opts : String)
  | tryUnmount (p : String)
  | removeFile (p : String)
  | removeDir (p : String)
deriving Repr, DecidableEq

/-- `.create_by_usbmount` (src/main.rs line 48). -/
def IDENTIFY_FILE : String := ".create_by_usbmount"

/-- The filesystems that get owner/group default options
(src/main.rs line 49). -/
def MOUNT_WITH_DEFAULT_OPTION_FILESYSTEM : List String := ["ntfs", "vfat", "exfat"]

/-- Rust `Path::join`: an absolute right operand replaces the path, and a
separator is inserted unless one is already present.  (Written over the
character lists so that it evaluates by kernel reduction.) -/
def pathJoin (a b : String) : String :=
  if b.data.head? = some '/' then b
  else if a.data.isEmpty || a.data.getLast? = some '/' then a ++ b
  else a ++ "/" ++ b

/-- Rust `Path::file_name`: the final normal component of the path. -/
def fileName (p : String) : Option String :=
  match ((p.splitOn "/").filter (fun s => s ≠ "" && s ≠ ".")).getLast? with
  | none => none
  | some l => if l = ".." then none else some l

/-- The suffix-deduplication loop of src/main.rs lines 252-266: starting
from `deduplicate_id = n`, the first index whose `<cand>-<i>` path does
not exist.  The source loop is unbounded; `fuel` bounds the embedding,
`none` standing for a run that exceeds it. -/
def findFreeSuffix (ex : String → Bool) (cand : String) : Nat → Nat → Option Nat
  | 0, _ => none
  | fuel + 1, n =>
    if ex (cand ++ "-" ++ toString n) then findFreeSuffix ex cand fuel (n + 1)
    else some n

/-- Outcome of the mount command flow. -/
inductive MountResult where
  | alreadyMounted (devPath mountPoint : String)
  | mounted (devPath mountPath : String)
  | mountFailed (devPath mountPath : String)
  | noDeviceFound
  | deviceNotFound (path : String)
  | allAlreadyMounted
  | cancelled
deriving Repr, DecidableEq

/-- The mount-path allocation of src/main.rs lines 235-279 for the case
with no explicit mount path: label-or-filename base dir, the
`<auto_mount_dir>/<user>/<base>` candidate, suffix deduplication, then
directory plus marker-file creation. -/
def allocateMountPath (env : Env) (fuel : Nat) (auto_mount_dir : String)
    (device : PartitionDevice) : Except String (String × List FsAction) :=
  match (match device.partition_label with
         | some l => Except.ok l
         | none =>
           match fileName device.dev_path with
           | some f => Except.ok f
           | none => Except.error ("file name of " ++ device.dev_path ++ " get failed")) with
  | .error e => .error e
  | .ok base_dir =>
    let username := env.sudoUser.getD env.whoamiUser
    let cand := pathJoin (pathJoin auto_mount_dir username) base_dir
    match (if env.pathExists cand then
             match findFreeSuffix env.pathExists cand fuel 0 with
             | some k => Except.ok (cand ++ "-" ++ toString k)
             | none => Except.error "deduplication loop exceeded the fuel bound"
           else Except.ok cand) with
    | .error e => .error e
    | .ok mount_path =>
      .ok (mount_path,
        [FsAction.createDirAll mount_path,
         FsAction.createFile (pathJoin mount_path IDENTIFY_FILE)])

/-- The mount-option defaulting of src/main.rs lines 281-295: an explicit
option string wins; otherwise the owner/group mapping is injected for the
allow-listed filesystems, preferring the pre-escalation ids. -/
def mountOptions (env : Env) (mount_option : Option String) (fs : String) : String :=
  match mount_option with
  | some o => o
  | none =>
    if MOUNT_WITH_DEFAULT_OPTION_FILESYSTEM.contains fs then
      "uid=" ++ (env.sudoUid.getD (toString env.euid)) ++
      ",gid=" ++ (env.sudoGid.getD (toString env.egid))
    else ""

/-- The mount flow of src/main.rs lines 228-316, after a device has been
selected: the already-mounted guard, mount-path allocation (skipped when
an explicit path is given), default mount options for the allow-listed
filesystems, and the mount call. -/
def mountDevice (env : Env) (fuel : Nat) (auto_mount_dir : String)
    (mount_option mount_path_arg : Option String) (device : PartitionDevice) :
    Except String (MountResult × List FsAction) :=
  match device.mounted_points with
  | mp :: _ => .ok (.alreadyMounted device.dev_path mp, [])
  | [] =>
    match (match mount_path_arg with
           | some p => Except.ok (p, ([] : List FsAction))
           | none => allocateMountPath env fuel auto_mount_dir device) with
    | .error e => .error e
    | .ok (mount_path, setupActs) =>
      let opts := mountOptions env mount_option device.partition_filesystem
      if env.mountOk device.dev_path mount_path opts then
        .ok (.mounted device.dev_path mount_path,
          setupActs ++ [.tryMount device.dev_path mount_path opts])
      else
        .ok (.mountFailed device.dev_path mount_path,
          setupActs ++ [.tryMount device.dev_path mount_path opts])

/-- Outcome of the umount command flow. -/
inductive UmountResult where
  | notMounted (devPath : String)
  | results (rs : List (String × Bool))
  | noDeviceFound
  | deviceNotFound (path : String)
  | noMountedDevice
  | cancelled
deriving Repr, DecidableEq

/-- One iteration of the unmount loop (src/main.rs lines 354-377): try to
unmount; on success, when the directory holds the marker file, remove the
marker then the directory. -/
def umountStep (env : Env) (mp : String) : (String × Bool) × List FsAction :=
  if env.umountOk mp then
    if env.pathExists (pathJoin mp IDENTIFY_FILE) then
      ((mp, true), [.tryUnmount mp, .removeFile (pathJoin mp IDENTIFY_FILE), .removeDir mp])
    else
      ((mp, true), [.tryUnmount mp])
  else
    ((mp, false), [.tryUnmount mp])

/-- The umount flow of src/main.rs lines 350-378, after a device has been
selected: the not-mounted guard, then the independent per-mount-point
loop. -/
def umountDevice (env : Env) (device : PartitionDevice) :
    UmountResult × List FsAction :=
  if device.mounted_points.length = 0 then
    (.notMounted device.dev_path, [])
  else
    (.results (device.mounted_points.map (fun mp => (umountStep env mp).1)),
     device.mounted_points.flatMap (fun mp => (umountStep env mp).2))

/-- Outcome of an interactive selection. -/
inductive SelectResult where
  | picked (d : PartitionDevice)
  | emptyExit
  | cancelled
deriving Repr, DecidableEq

/-- `select_mount_device` (src/main.rs lines 89-128): offer only devices
with zero mount points; exit when none remain; otherwise defer to the
interactive pick.  An out-of-range pick cannot be produced by the dialog
and is embedded as an error. -/
def select_mount_device (env : Env) (m : List (String × PartitionDevice)) :
    Except String SelectResult :=
  let device_vec := (m.map (fun e => e.2)).filter
    (fun d => d.mounted_points.length == 0)
  if device_vec.length = 0 then .ok .emptyExit
  else
    match env.pick device_vec.length with
    | some i =>
      match device_vec[i]? with
      | some d => .ok (.picked d)
      | none => .error "selection index out of range"
    | none => .ok .cancelled

/-- `select_umount_device` (src/main.rs lines 130-170): offer only devices
with at least one mount point. -/
def select_umount_device (env : Env) (m : List (String × PartitionDevice)) :
    Except String SelectResult :=
  let device_vec := (m.map (fun e => e.2)).filter
    (fun d => d.mounted_points.length > 0)
  if device_vec.length = 0 then .ok .emptyExit
  else
    match env.pick device_vec.length with
    | some i =>
      match device_vec[i]? with
      | some d => .ok (.picked d)
      | none => .error "selection index out of range"
    | none => .ok .cancelled

/-- `devices_map.get(dev_path)`: association lookup by literal string
equality, as the `HashMap` keyed by `dev_path` provides. -/
def assocFind (m : List (String × PartitionDevice)) (p : String) :
    Option PartitionDevice :=
  (m.find? (fun e => e.1 == p)).map (fun e => e.2)

/-- The device-selection match of the Mount arm (src/main.rs lines
197-226) followed by the mount flow: no argument selects the single
device, exits on zero devices, goes interactive on several; an explicit
argument is looked up by exact key. -/
def runMount (env : Env) (fuel : Nat) (auto_mount_dir : String)
    (mount_option dev_path_arg mount_path_arg : Option String)
    (devices_map : List (String × PartitionDevice)) :
    Except String (MountResult × List FsAction) :=
  match dev_path_arg, devices_map with
  | none, [] => .ok (.noDeviceFound, [])
  | none, [e] => mountDevice env fuel auto_mount_dir mount_option mount_path_arg e.2
  | none, e1 :: e2 :: es =>
    (match select_mount_device env (e1 :: e2 :: es) with
     | .error e => .error e
     | .ok .emptyExit => .ok (.allAlreadyMounted, [])
     | .ok .cancelled => .ok (.cancelled, [])
     | .ok (.picked d) => mountDevice env fuel auto_mount_dir mount_option mount_path_arg d)
  | some p, m =>
    match assocFind m p with
    | none => .ok (.deviceNotFound p, [])
    | some d => mountDevice env fuel auto_mount_dir mount_option mount_path_arg d

/-- The device-selection match of the Umount arm (src/main.rs lines
319-348) followed by the umount flow. -/
def runUmount (env : Env) (dev_path_arg : Option String)
    (devices_map : List (String × PartitionDevice)) :
    Except String (UmountResult × List FsAction) :=
  match dev_path_arg, devices_map with
  | none, [] => .ok (.noDeviceFound, [])
  | none, [e] => .ok (umountDevice env e.2)
  | none, e1 :: e2 :: es =>
    (match select_umount_device env (e1 :: e2 :: es) with
     | .error e => .error e
     | .ok .emptyExit => .ok (.noMountedDevice, [])
     | .ok .cancelled => .ok (.cancelled, [])
     | .ok (.picked d) => .ok (umountDevice env d))
  | some p, m =>
    match assocFind m p with
    | none => .ok (.deviceNotFound p, [])
    | some d => .ok (umountDevice env d)

/-- First component of an unmount step: the mount point and whether the
unmount succeeded. -/
theorem umountStep_fst (env : Env) (mp : String) :
    (umountStep env mp).1 = (mp, env.umountOk mp) := by
  unfold umountStep
  by_cases h1 : env.umountOk mp <;>
    by_cases h2 : env.pathExists (pathJoin mp IDENTIFY_FILE) <;>
    simp [h1, h2]

/-- Action trace of an unmount step. -/
theorem umountStep_snd (env : Env) (mp : String) :
    (umountStep env mp).2 =
      if env.umountOk mp then
        if env.pathExists (pathJoin mp IDENTIFY_FILE) then
          [FsAction.tryUnmount mp, FsAction.removeFile (pathJoin mp IDENTIFY_FILE),
           FsAction.removeDir mp]
        else [FsAction.tryUnmount mp]
      else [FsAction.tryUnmount mp] := by
  unfold umountStep
  by_cases h1 : env.umountOk mp <;>
    by_cases h2 : env.pathExists (pathJoin mp IDENTIFY_FILE) <;>
    simp [h1, h2]

/-- An unmount step emits a directory removal exactly after a successful
unmount of a marker-carrying mount point. -/
theorem umountStep_removeDir (env : Env) (mp x : String) :
    FsAction.removeDir x ∈ (umountStep env mp).2 ↔
      (x = mp ∧ env.umountOk mp = true ∧
        env.pathExists (pathJoin mp IDENTIFY_FILE) = true) := by
  rw [umountStep_snd]
  by_cases h1 : env.umountOk mp <;>
    by_cases h2 : env.pathExists (pathJoin mp IDENTIFY_FILE) <;>
    simp [h1, h2]

/-! ## Claim C3 -/

/-- C3: unmount rejects up front with the not-mounted error when the
device has no mount points and performs nothing; otherwise every mount
point is attempted independently (the result row of each point depends
only on that point's unmount outcome), and a directory removal is emitted
exactly for the successfully unmounted points whose directory carries the
marker file, the marker being removed before the directory. -/
theorem C3_umount_flow (env : Env) (dev : PartitionDevice) :
    (dev.mounted_points = [] →
      umountDevice env dev = (.notMounted dev.dev_path, [])) ∧
    (dev.mounted_points ≠ [] →
      ∃ acts, umountDevice env dev =
        (.results (dev.mounted_points.map (fun mp => (mp, env.umountOk mp))), acts) ∧
        acts = dev.mounted_points.flatMap (fun mp =>
          if env.umountOk mp then
            if env.pathExists (pathJoin mp IDENTIFY_FILE) then
              [FsAction.tryUnmount mp, FsAction.removeFile (pathJoin mp IDENTIFY_FILE),
               FsAction.removeDir mp]
            else [FsAction.tryUnmount mp]
          else [FsAction.tryUnmount mp]) ∧
        (∀ mp, FsAction.removeDir mp ∈ acts ↔
          (mp ∈ dev.mounted_points ∧ env.umountOk mp = true ∧
            env.pathExists (pathJoin mp IDENTIFY_FILE) = true))) := by
  constructor
  · intro h
    unfold umountDevice
    rw [h]
    rfl
  · intro h
    have hlen : ¬ dev.mounted_points.length = 0 := by
      simpa [List.length_eq_zero] using h
    have hfst : (fun mp => (umountStep env mp).1) =
        (fun mp => (mp, env.umountOk mp)) := funext (umountStep_fst env)
    have hsnd : (fun mp => (umountStep env mp).2) =
        (fun mp =>
          if env.umountOk mp then
            if env.pathExists (pathJoin mp IDENTIFY_FILE) then
              [FsAction.tryUnmount mp, FsAction.removeFile (pathJoin mp IDENTIFY_FILE),
               FsAction.removeDir mp]
            else [FsAction.tryUnmount mp]
          else [FsAction.tryUnmount mp]) := funext (umountStep_snd env)
    refine ⟨dev.mounted_points.flatMap (fun mp => (umountStep env mp).2), ?_, ?_, ?_⟩
    · unfold umountDevice
      rw [if_neg hlen, hfst]
    · rw [hsnd]
    · intro mp
      rw [List.mem_flatMap]
      constructor
      · rintro ⟨x, hx, hmem⟩
        obtain ⟨hxe, h1, h2⟩ := (umountStep_removeDir env x mp).mp hmem
        subst hxe
        exact ⟨hx, h1, h2⟩
      · rintro ⟨hx, h1, h2⟩
        exact ⟨mp, hx, (umountStep_removeDir env mp mp).mpr ⟨rfl, h1, h2⟩⟩

/-! ## Claim C4 -/

/-- C4: mount on a device with a non-empty mount-point sequence fails up
front with the already-mounted error naming the first existing mount
point, and performs no filesystem action at all (empty action trace: no
directory, no marker file, no mount attempt). -/
theorem C4_already_mounted (env : Env) (fuel : Nat) (auto_mount_dir : String)
    (mount_option mount_path_arg : Option String) (device : PartitionDevice)
    (h : device.mounted_points ≠ []) :
    ∃ mp rest, device.mounted_points = mp :: rest ∧
      mountDevice env fuel auto_mount_dir mount_option mount_path_arg device =
        .ok (.alreadyMounted device.dev_path mp, []) := by
  cases hm : device.mounted_points with
  | nil => exact absurd hm h
  | cons mp rest =>
    refine ⟨mp, rest, rfl, ?_⟩
    unfold mountDevice
    rw [hm]

/-- The mount path an outcome committed to, for outcomes that got past
the guards. -/
def mountTarget : MountResult → Option String
  | .mounted _ p => some p
  | .mountFailed _ p => some p
  | _ => none

/-- The deduplication loop returns the least free index at or above its
starting point, given enough fuel. -/
theorem findFreeSuffix_least (ex : String → Bool) (cand : String) :
    ∀ fuel n k, n ≤ k →
      (∀ j, n ≤ j → j < k → ex (cand ++ "-" ++ toString j) = true) →
      ex (cand ++ "-" ++ toString k) = false →
      k - n < fuel →
      findFreeSuffix ex cand fuel n = some k := by
  intro fuel
  induction fuel with
  | zero => intro n k _ _ _ h4; omega
  | succ f ih =>
    intro n k h1 h2 h3 h4
    unfold findFreeSuffix
    by_cases hnk : n = k
    · subst hnk
      rw [h3]
      rfl
    · have hlt : n < k := lt_of_le_of_ne h1 hnk
      rw [h2 n le_rfl hlt]
      exact ih (n + 1) k hlt (fun j hj1 hj2 => h2 j (by omega) hj2) h3 (by omega)

/-- The allocator's candidate and final path, the two claim cases. -/
theorem allocateMountPath_eq (env : Env) (fuel : Nat) (auto_mount_dir : String)
    (device : PartitionDevice) (base cand : String)
    (hbase : device.partition_label = some base ∨
      (device.partition_label = none ∧ fileName device.dev_path = some base))
    (hcand : cand = pathJoin (pathJoin auto_mount_dir (env.sudoUser.getD env.whoamiUser)) base) :
    (env.pathExists cand = false →
      allocateMountPath env fuel auto_mount_dir device =
        .ok (cand, [FsAction.createDirAll cand,
          FsAction.createFile (pathJoin cand IDENTIFY_FILE)])) ∧
    (∀ k, env.pathExists cand = true →
      (∀ j, j < k → env.pathExists (cand ++ "-" ++ toString j) = true) →
      env.pathExists (cand ++ "-" ++ toString k) = false →
      k < fuel →
      allocateMountPath env fuel auto_mount_dir device =
        .ok (cand ++ "-" ++ toString k,
          [FsAction.createDirAll (cand ++ "-" ++ toString k),
           FsAction.createFile (pathJoin (cand ++ "-" ++ toString k) IDENTIFY_FILE)])) := by
  have hb : (match device.partition_label with
      | some l => Except.ok l
      | none =>
        match fileName device.dev_path with
        | some f => Except.ok f
        | none => Except.error ("file name of " ++ device.dev_path ++ " get failed")) =
      Except.ok (ε := String) base := by
    rcases hbase with h | ⟨h1, h2⟩
    · rw [h]
    · rw [h1, h2]
  constructor
  · intro hne
    unfold allocateMountPath
    rw [hb]
    simp only [← hcand, hne]
    rfl
  · intro k hex hall hfree hfuel
    have hffs : findFreeSuffix env.pathExists cand fuel 0 = some k :=
      findFreeSuffix_least env.pathExists cand fuel 0 k (by omega)
        (fun j _ hj => hall j hj) hfree (by omega)
    unfold allocateMountPath
    rw [hb]
    simp [← hcand, hex, hffs]

/-! ## Claim C5 -/

/-- C5: when no explicit mount path is supplied, the base name is the
partition label if present, else the final path component of the device
path; the candidate is `<auto_mount_dir>/<invoking user>/<base>`; when the
candidate is unused it is selected as the mount target, and when it
exists the target is `<candidate>-<k>` for the least unused zero-based
suffix `k` (in particular `-0` when only the candidate exists, `-1` when
the candidate and `-0` exist). -/
theorem C5_path_allocation (env : Env) (fuel : Nat) (auto_mount_dir : String)
    (mount_option : Option String) (device : PartitionDevice) (base cand : String)
    (hnm : device.mounted_points = [])
    (hbase : device.partition_label = some base ∨
      (device.partition_label = none ∧ fileName device.dev_path = some base))
    (hcand : cand = pathJoin (pathJoin auto_mount_dir (env.sudoUser.getD env.whoamiUser)) base) :
    (env.pathExists cand = false →
      ∃ r acts, mountDevice env fuel auto_mount_dir mount_option none device = .ok (r, acts) ∧
        mountTarget r = some cand ∧
        FsAction.createDirAll cand ∈ acts ∧
        FsAction.createFile (pathJoin cand IDENTIFY_FILE) ∈ acts) ∧
    (∀ k, env.pathExists cand = true →
      (∀ j, j < k → env.pathExists (cand ++ "-" ++ toString j) = true) →
      env.pathExists (cand ++ "-" ++ toString k) = false →
      k < fuel →
      ∃ r acts, mountDevice env fuel auto_mount_dir mount_option none device = .ok (r, acts) ∧
        mountTarget r = some (cand ++ "-" ++ toString k) ∧
        FsAction.createDirAll (cand ++ "-" ++ toString k) ∈ acts ∧
        FsAction.createFile (pathJoin (cand ++ "-" ++ toString k) IDENTIFY_FILE) ∈ acts) := by
  obtain ⟨halloc1, halloc2⟩ :=
    allocateMountPath_eq env fuel auto_mount_dir device base cand hbase hcand
  constructor
  · intro hne
    unfold mountDevice
    rw [hnm]
    simp only [halloc1 hne]
    cases hmo : env.mountOk device.dev_path cand
        (mountOptions env mount_option device.partition_filesystem) <;>
      (simp [hmo]; exact ⟨_, _, ⟨rfl, rfl⟩, rfl, by simp, by simp⟩)
  · intro k hex hall hfree hfuel
    unfold mountDevice
    rw [hnm]
    simp only [halloc2 k hex hall hfree hfuel]
    cases hmo : env.mountOk device.dev_path (cand ++ "-" ++ toString k)
        (mountOptions env mount_option device.partition_filesystem) <;>
      (simp [hmo]; exact ⟨_, _, ⟨rfl, rfl⟩, rfl, by simp, by simp⟩)

/-! ## Claim C9 -/

/-- C9: with no device argument and an inventory holding exactly one
device, that device is auto-selected regardless of its mounted state, so
a single already-mounted device reaches the already-mounted failure (not
a no-device or selection outcome); the interactive mount selection only
ever yields devices with zero mount points, and the interactive umount
selection only devices with at least one. -/
theorem C9_single_auto_selection (env : Env) (fuel : Nat)
    (auto_mount_dir : String) (mount_option mount_path_arg : Option String)
    (k : String) (d : PartitionDevice)
    (m : List (String × PartitionDevice)) (mp : String) (rest : List String)
    (hmp : d.mounted_points = mp :: rest) :
    runMount env fuel auto_mount_dir mount_option none mount_path_arg [(k, d)] =
      .ok (.alreadyMounted d.dev_path mp, []) ∧
    (∀ d2, select_mount_device env m = .ok (.picked d2) → d2.mounted_points = []) ∧
    (∀ d2, select_umount_device env m = .ok (.picked d2) → d2.mounted_points ≠ []) := by
  refine ⟨?_, ?_, ?_⟩
  · show mountDevice env fuel auto_mount_dir mount_option mount_path_arg d =
      .ok (.alreadyMounted d.dev_path mp, [])
    unfold mountDevice
    rw [hmp]
  · intro d2 hsel
    unfold select_mount_device at hsel
    by_cases hlen : ((m.map (fun e => e.2)).filter
        (fun d => d.mounted_points.length == 0)).length = 0
    · rw [if_pos hlen] at hsel
      cases hsel
    · rw [if_neg hlen] at hsel
      cases hpick : env.pick ((m.map (fun e => e.2)).filter
          (fun d => d.mounted_points.length == 0)).length with
      | none => simp [hpick] at hsel
      | some i =>
        simp only [hpick] at hsel
        cases hget : ((m.map (fun e => e.2)).filter
            (fun d => d.mounted_points.length == 0))[i]? with
        | none => simp [hget] at hsel
        | some dd =>
          simp only [hget] at hsel
          have hdd : dd = d2 := by
            cases hsel
            rfl
          subst hdd
          have hmem := List.getElem?_mem hget
          have := (List.mem_filter.mp hmem).2
          simpa [List.length_eq_zero] using this
  · intro d2 hsel
    unfold select_umount_device at hsel
    by_cases hlen : ((m.map (fun e => e.2)).filter
        (fun d => d.mounted_points.length > 0)).length = 0
    · rw [if_pos hlen] at hsel
      cases hsel
    · rw [if_neg hlen] at hsel
      cases hpick : env.pick ((m.map (fun e => e.2)).filter
          (fun d => d.mounted_points.length > 0)).length with
      | none => simp [hpick] at hsel
      | some i =>
        simp only [hpick] at hsel
        cases hget : ((m.map (fun e => e.2)).filter
            (fun d => d.mounted_points.length > 0))[i]? with
        | none => simp [hget] at hsel
        | some dd =>
          simp only [hget] at hsel
          have hdd : dd = d2 := by
            cases hsel
            rfl
          subst hdd
          have hmem := List.getElem?_mem hget
          have := (List.mem_filter.mp hmem).2
          intro hcon
          simp [hcon] at this

/-- The explicit-path arm of the Mount selection match. -/
theorem runMount_some_eq (env : Env) (fuel : Nat) (auto_mount_dir : String)
    (mount_option mount_path_arg : Option String)
    (m : List (String × PartitionDevice)) (s : String) :
    runMount env fuel auto_mount_dir mount_option (some s) mount_path_arg m =
      (match assocFind m s with
       | none => .ok (.deviceNotFound s, [])
       | some d => mountDevice env fuel auto_mount_dir mount_option mount_path_arg d) := rfl

/-- The explicit-path arm of the Umount selection match. -/
theorem runUmount_some_eq (env : Env) (m : List (String × PartitionDevice)) (s : String) :
    runUmount env (some s) m =
      (match assocFind m s with
       | none => .ok (.deviceNotFound s, [])
       | some d => .ok (umountDevice env d)) := rfl

/-! ## Claim C10 -/

/-- C10: an explicit device path is resolved by literal string equality
against the inventory keys: a string equal to no key (a symlink to the
same device included) yields the device-not-found exit with no filesystem
action for both mount and umount, and a matching key hands exactly that
entry's device to the respective flow. -/
theorem C10_exact_path_lookup (env : Env) (fuel : Nat) (auto_mount_dir : String)
    (mount_option mount_path_arg : Option String)
    (m : List (String × PartitionDevice)) (s : String) :
    (assocFind m s = none →
      runMount env fuel auto_mount_dir mount_option (some s) mount_path_arg m =
        .ok (.deviceNotFound s, []) ∧
      runUmount env (some s) m = .ok (.deviceNotFound s, [])) ∧
    ((assocFind m s).isSome ↔ ∃ e ∈ m, e.1 = s) ∧
    (∀ d, assocFind m s = some d →
      runMount env fuel auto_mount_dir mount_option (some s) mount_path_arg m =
        mountDevice env fuel auto_mount_dir mount_option mount_path_arg d ∧
      runUmount env (some s) m = .ok (umountDevice env d)) := by
  refine ⟨?_, ?_, ?_⟩
  · intro hnone
    constructor
    · rw [runMount_some_eq, hnone]
    · rw [runUmount_some_eq, hnone]
  · simp [assocFind, List.find?_isSome]
  · intro d hsome
    constructor
    · rw [runMount_some_eq, hsome]
    · rw [runUmount_some_eq, hsome]

/-! Concrete sample environments and devices for the command-layer
witnesses. -/

/-- A device currently mounted at two points. -/
def pdTwoMounts : PartitionDevice :=
  { dev_path := "/dev/sdb1",
    partition_label := some "STICK",
    partition_filesystem := "vfat",
    partition_size := 1048576,
    usb_model_name := some "Cruzer_Blade",
    mounted_points := ["/mnt/a", "/mnt/b"] }

/-- An unmounted device. -/
def pdUnmounted : PartitionDevice :=
  { dev_path := "/dev/sdc1",
    partition_label := some "DATA",
    partition_filesystem := "ext4",
    partition_size := 2097152,
    usb_model_name := some "DataTraveler",
    mounted_points := [] }

/-- A host on which unmounting `/mnt/a` fails and `/mnt/b` succeeds, and
only `/mnt/b` carries the marker file. -/
def envSample : Env :=
  { pathExists := fun p => p == pathJoin "/mnt/b" IDENTIFY_FILE,
    umountOk := fun p => p == "/mnt/b",
    mountOk := fun _ _ _ => true,
    pick := fun _ => some 0,
    sudoUser := some "alice",
    sudoUid := some "1000",
    sudoGid := some "1000",
    whoamiUser := "root",
    euid := 0,
    egid := 0 }

/-- A host on which the DATA candidate path and its -0 variant exist. -/
def envTaken : Env :=
  { pathExists := fun p =>
      p == "/var/run/media/alice/DATA" || p == "/var/run/media/alice/DATA-0",
    umountOk := fun _ => false,
    mountOk := fun _ _ _ => true,
    pick := fun _ => none,
    sudoUser := some "alice",
    sudoUid := none,
    sudoGid := none,
    whoamiUser := "root",
    euid := 0,
    egid := 0 }

/-- Witness for C3: two mount points, the first failing, the second
succeeding with a marker: one failure row, one success row, and only the
second directory is cleaned up, marker first. -/
theorem C3_umount_flow_witness :
    umountDevice envSample pdTwoMounts =
      (.results [("/mnt/a", false), ("/mnt/b", true)],
       [FsAction.tryUnmount "/mnt/a", FsAction.tryUnmount "/mnt/b",
        FsAction.removeFile "/mnt/b/.create_by_usbmount",
        FsAction.removeDir "/mnt/b"]) := by
  obtain ⟨_, h2⟩ := C3_umount_flow envSample pdTwoMounts
  obtain ⟨acts, heq, hacts, _⟩ := h2 (by decide)
  rw [heq, hacts]
  decide

/-- Witness for C4: mount on the twice-mounted device reports its first
mount point and performs nothing. -/
theorem C4_already_mounted_witness :
    mountDevice envSample 5 "/var/run/media/" none none pdTwoMounts =
      .ok (.alreadyMounted "/dev/sdb1" "/mnt/a", []) := by
  obtain ⟨mp, rest, hm, heq⟩ := C4_already_mounted envSample 5 "/var/run/media/"
    none none pdTwoMounts (by decide)
  have hcons : mp :: rest = ["/mnt/a", "/mnt/b"] := hm.symm.trans (by decide)
  have hmp : mp = "/mnt/a" := by injection hcons
  subst hmp
  exact heq.trans (by decide)

/-- Witness for C5: label DATA, candidate and -0 both taken, so -1 is
allocated, created and marked. -/
theorem C5_path_allocation_witness :
    ∃ r acts, mountDevice envTaken 10 "/var/run/media/" none none pdUnmounted =
        .ok (r, acts) ∧
      mountTarget r = some "/var/run/media/alice/DATA-1" ∧
      FsAction.createDirAll "/var/run/media/alice/DATA-1" ∈ acts ∧
      FsAction.createFile "/var/run/media/alice/DATA-1/.create_by_usbmount" ∈ acts := by
  obtain ⟨_, h2⟩ := C5_path_allocation envTaken 10 "/var/run/media/" none pdUnmounted
    "DATA" "/var/run/media/alice/DATA" (by decide) (Or.inl (by decide)) (by decide)
  obtain ⟨r, acts, heq, htgt, hdir, hfile⟩ := h2 1 (by decide)
    (by
      intro j hj
      have hj0 : j = 0 := by omega
      subst hj0
      decide)
    (by decide) (by decide)
  refine ⟨r, acts, heq, ?_, ?_, ?_⟩
  · exact htgt.trans (by decide)
  · rw [show "/var/run/media/alice/DATA-1" =
      "/var/run/media/alice/DATA" ++ "-" ++ toString 1 from by decide]
    exact hdir
  · rw [show "/var/run/media/alice/DATA-1/.create_by_usbmount" =
      pathJoin ("/var/run/media/alice/DATA" ++ "-" ++ toString 1) IDENTIFY_FILE from by decide]
    exact hfile

/-- Witness for C9: a singleton inventory holding an already-mounted
device is auto-selected and fails with already-mounted; the interactive
selections of a two-device inventory yield the unmounted device for mount
and the mounted one for umount. -/
theorem C9_single_auto_selection_witness :
    runMount envSample 5 "/var/run/media/" none none none [("/dev/sdb1", pdTwoMounts)] =
      .ok (.alreadyMounted "/dev/sdb1" "/mnt/a", []) ∧
    pdUnmounted.mounted_points = [] ∧
    pdTwoMounts.mounted_points ≠ [] := by
  obtain ⟨h1, h2, h3⟩ := C9_single_auto_selection envSample 5 "/var/run/media/" none none
    "/dev/sdb1" pdTwoMounts [("/dev/sdb1", pdTwoMounts), ("/dev/sdc1", pdUnmounted)]
    "/mnt/a" ["/mnt/b"] (by decide)
  refine ⟨h1.trans (by decide), ?_, ?_⟩
  · exact h2 pdUnmounted (by decide)
  · exact h3 pdTwoMounts (by decide)

/-- Witness for C10: a path naming the device through a different string
(a by-label symlink) is not found and nothing is attempted; the literal
inventory key is found and handed to the umount flow. -/
theorem C10_exact_path_lookup_witness :
    runMount envSample 5 "/var/run/media/" none (some "/dev/disk/by-label/STICK") none
        [("/dev/sdb1", pdTwoMounts)] =
      .ok (.deviceNotFound "/dev/disk/by-label/STICK", []) ∧
    runUmount envSample (some "/dev/sdb1") [("/dev/sdb1", pdTwoMounts)] =
      .ok (umountDevice envSample pdTwoMounts) := by
  obtain ⟨hn, _, _⟩ := C10_exact_path_lookup envSample 5 "/var/run/media/" none none
    [("/dev/sdb1", pdTwoMounts)] "/dev/disk/by-label/STICK"
  obtain ⟨_, _, hs⟩ := C10_exact_path_lookup envSample 5 "/var/run/media/" none none
    [("/dev/sdb1", pdTwoMounts)] "/dev/sdb1"
  exact ⟨(hn (by decide)).1, (hs pdTwoMounts (by decide)).2⟩
